import Mathlib

/-!
Shallow embedding of the OpenFE demonstration notebook
(src/source/openfe/OpenFE_demo.ipynb) from openforcefield/joint-demo.

The notebook is a straight-line tutorial script: each code cell is a short
sequence of Python statements, almost all of which call into external
libraries (rdkit, openfe, kartograf, openff, pathlib) or shell out to the
openfe command-line tool.  We embed it at two levels:

1. a statement-level embedding (`PyStmt`, `notebookStmts`): each Python
   statement of each code cell is one entry, recording its assignment
   target, the external calls it makes, attribute stores, in-place
   mutations, shell commands, loops, and imports;

2. a functional embedding of the one piece of real data flow the notebook
   contains, the transformations loop that builds the alchemical network
   and the loop that dumps every transformation to a JSON file.
-/

/-- An external library call: the providing package and the function or
constructor invoked. -/
structure ExtCall where
  package : String
  fn : String
deriving DecidableEq, Repr

/-- One Python statement of a notebook code cell.  `pyImport` records a
module import, `assign` a binding whose right-hand side makes the listed
external calls (empty when the right-hand side is pure local data plumbing),
`attrAssign` an attribute store into an already existing object,
`inPlaceCall` an external call documented to modify its argument in place,
`expr` an expression statement, `forLoop` a for statement whose body makes
the listed external calls per iteration, `shell` an IPython shell escape.
`tryExcept` and `defStmt` are the statement forms for exception handlers and
function or class definitions; the notebook contains none of either. -/
inductive PyStmt where
  | pyImport (modules : List String)
  | assign (target : String) (calls : List ExtCall)
  | attrAssign (target : String) (attrPath : List String) (value : String)
  | inPlaceCall (target : String) (call : ExtCall)
  | expr (calls : List ExtCall)
  | forLoop (tag : String) (calls : List ExtCall)
  | shell (tokens : List String)
  | tryExcept
  | defStmt (fname : String)
deriving DecidableEq, Repr

/-- The code cells of OpenFE_demo.ipynb, statement by statement, in
execution order. -/
def notebookStmts : List PyStmt := [
  .pyImport ["rdkit"],
  .pyImport ["rdkit.Chem"],
  .assign "ligand_rdmols" [⟨"rdkit.Chem", "SDMolSupplier"⟩],
  .inPlaceCall "ligand_rdmols" ⟨"rdkit.Chem.AllChem", "Compute2DCoords"⟩,
  .expr [⟨"rdkit.Chem.Draw", "MolsToGridImage"⟩],
  .pyImport ["openfe"],
  .pyImport ["openff.units"],
  .assign "protein" [⟨"openfe", "ProteinComponent.from_pdb_file"⟩],
  .assign "solvent" [⟨"openfe", "SolventComponent"⟩],
  .assign "ligand_mols" [⟨"openfe", "SmallMoleculeComponent"⟩, ⟨"rdkit.Chem", "SDMolSupplier"⟩],
  .pyImport ["kartograf"],
  .assign "mapper" [⟨"kartograf", "KartografAtomMapper"⟩],
  .assign "atom_mapping" [⟨"kartograf", "KartografAtomMapper.suggest_mappings"⟩],
  .expr [],
  .pyImport ["openfe.utils"],
  .expr [⟨"openfe.utils.visualization_3D", "view_mapping_3d"⟩],
  .pyImport ["openfe.setup.ligand_network_planning"],
  .pyImport ["openfe"],
  .assign "lomap_network" [⟨"openfe.setup.ligand_network_planning", "generate_lomap_network"⟩, ⟨"kartograf", "KartografAtomMapper"⟩],
  .assign "mst_network" [⟨"openfe.setup.ligand_network_planning", "generate_minimal_spanning_network"⟩, ⟨"kartograf", "KartografAtomMapper"⟩],
  .assign "mst_edges" [],
  .expr [⟨"builtins", "print"⟩],
  .expr [],
  .pyImport ["openfe.utils.atommapping_network_plotting"],
  .expr [⟨"openfe.utils.atommapping_network_plotting", "plot_atommapping_network"⟩],
  .expr [⟨"openfe.utils.atommapping_network_plotting", "plot_atommapping_network"⟩],
  .assign "edge" [],
  .assign "ligand_A_complex" [⟨"openfe", "ChemicalSystem"⟩],
  .assign "ligand_A_solvent" [⟨"openfe", "ChemicalSystem"⟩],
  .assign "ligand_B_complex" [⟨"openfe", "ChemicalSystem"⟩],
  .assign "ligand_B_solvent" [⟨"openfe", "ChemicalSystem"⟩],
  .assign "another_complex" [⟨"openfe", "ChemicalSystem"⟩],
  .expr [⟨"builtins", "print"⟩],
  .expr [⟨"builtins", "print"⟩],
  .pyImport ["openfe.protocols.openmm_rfe"],
  .assign "settings" [⟨"openfe.protocols.openmm_rfe", "RelativeHybridTopologyProtocol.default_settings"⟩],
  .expr [⟨"builtins", "print"⟩],
  .attrAssign "settings" ["forcefield_settings", "small_molecule_forcefield"] "openff-2.2",
  .expr [⟨"builtins", "print"⟩],
  .assign "rbfe_protocol" [⟨"openfe.protocols.openmm_rfe", "RelativeHybridTopologyProtocol"⟩],
  .assign "transformation_complex" [⟨"openfe", "Transformation"⟩],
  .assign "transformation_solvent" [⟨"openfe", "Transformation"⟩],
  .pyImport ["pathlib"],
  .assign "out_dir" [⟨"pathlib", "Path"⟩],
  .expr [⟨"pathlib", "Path.mkdir"⟩],
  .expr [⟨"openfe", "Transformation.dump"⟩],
  .expr [⟨"openfe", "Transformation.dump"⟩],
  .assign "transformations" [],
  .forLoop "network_transformations" [⟨"openfe", "ChemicalSystem"⟩, ⟨"openfe", "ChemicalSystem"⟩, ⟨"openfe", "Transformation"⟩],
  .assign "network" [⟨"openfe", "AlchemicalNetwork"⟩],
  .assign "transformation_dir" [⟨"pathlib", "Path"⟩],
  .expr [⟨"pathlib", "Path.mkdir"⟩],
  .forLoop "dump_network_transformations" [⟨"openfe", "Transformation.dump"⟩],
  .shell ["ls", "networktransforms"],
  .shell ["openfe", "plan-rbfe-network", "-M", "ligands.sdf", "-p", "protein.pdb", "-o", "cli_setup", "-s", "settings.yaml"],
  .shell ["ls", "results_jsons/easy_rbfe_ligand_12_solvent_ligand_13_solvent/shared*"],
  .shell ["openfe", "gather", "results_jsons/", "--report", "ddg"],
  .shell ["openfe", "gather", "results_jsons/", "--report", "dg"]]

/-- The openfe command line the notebook presents, in its markdown usage
note on running simulations, as the way each written transformation JSON is
executed. -/
def documentedCommandLines : List (List String) := [
  ["openfe", "quickrun", "path/to/transformation.json", "-o", "results.json", "-d", "working-directory"]]

/-- External calls made by one statement. -/
def stmtCalls : PyStmt → List ExtCall
  | .assign _ cs => cs
  | .inPlaceCall _ c => [c]
  | .expr cs => cs
  | .forLoop _ cs => cs
  | _ => []

/-- Every external call of the notebook, in execution order. -/
def notebookExtCalls : List ExtCall := notebookStmts.flatMap stmtCalls

/-- A statement mutates an existing object when it is an attribute store or
an in-place external call. -/
def isMutation : PyStmt → Bool
  | .attrAssign _ _ _ => true
  | .inPlaceCall _ _ => true
  | _ => false

/-- The object a mutating statement modifies. -/
def mutationTarget : PyStmt → Option String
  | .attrAssign t _ _ => some t
  | .inPlaceCall t _ => some t
  | _ => none

/-! ## Data model of the objects the notebook builds

The component and system types below mirror the external openfe and gufe
classes only as far as the notebook exercises them: the fields the notebook
reads (`name`, `componentA`, `componentB`, `componentA_to_componentB`) and
the dictionaries it builds.  Equality on every type is structural, matching
the value equality the notebook demonstrates on ChemicalSystems. -/

/-- A small molecule component, as loaded from ligands.sdf.  The notebook
reads its `name` attribute; `molblock` stands for the rest of its chemical
content. -/
structure SmallMoleculeComponent where
  name : String
  molblock : String
deriving DecidableEq, Repr

/-- The protein component, loaded from protein.pdb. -/
structure ProteinComponent where
  name : String
  pdbSource : String
deriving DecidableEq, Repr

/-- The solvent component built in the notebook with
positive_ion Na, negative_ion Cl, neutralize True,
ion_concentration 0.15 nanomolar. -/
structure SolventComponent where
  positive_ion : String
  negative_ion : String
  neutralize : Bool
  ion_concentration : String
deriving DecidableEq, Repr

/-- The concrete solvent the notebook constructs. -/
def notebookSolvent : SolventComponent :=
  ⟨"Na", "Cl", true, "0.15 nanomolar"⟩

/-- An atom mapping between two ligands, as produced by
suggest_mappings and carried on every network edge: the two end-state
components and the index correspondence componentA_to_componentB. -/
structure LigandAtomMapping where
  componentA : SmallMoleculeComponent
  componentB : SmallMoleculeComponent
  componentA_to_componentB : List (Nat × Nat)
deriving DecidableEq, Repr

/-- The component dictionary passed to ChemicalSystem.  The notebook only
ever uses the keys ligand, solvent and (optionally) protein, so the
dictionary is represented by one field per key. -/
structure SysDict where
  ligand : SmallMoleculeComponent
  solvent : SolventComponent
  protein : Option ProteinComponent
deriving DecidableEq, Repr

/-- A chemical system: the components dictionary it was constructed from,
with structural (value) equality. -/
structure ChemicalSystem where
  components : SysDict
deriving DecidableEq, Repr

/-- The forcefield settings block of the protocol settings; the notebook
touches only small_molecule_forcefield. -/
structure ForcefieldSettings where
  small_molecule_forcefield : String
deriving DecidableEq, Repr

/-- The settings object of the RelativeHybridTopologyProtocol, as far as
the notebook reads or writes it. -/
structure RHTPSettings where
  forcefield_settings : ForcefieldSettings
deriving DecidableEq, Repr

/-- The protocol object, created from its settings. -/
structure RelativeHybridTopologyProtocol where
  settings : RHTPSettings
deriving DecidableEq, Repr

/-- The mapping argument of a Transformation: the single-edge section
passes the edge directly, the network loop passes the one-entry dictionary
with key ligand. -/
inductive MappingArg where
  | direct (m : LigandAtomMapping)
  | ligandKeyed (m : LigandAtomMapping)
deriving DecidableEq, Repr

/-- A Transformation as the notebook constructs it: two end-state systems,
the mapping argument, the shared protocol, and a name. -/
structure Transformation where
  stateA : ChemicalSystem
  stateB : ChemicalSystem
  mapping : MappingArg
  protocol : RelativeHybridTopologyProtocol
  name : String
deriving DecidableEq, Repr

/-! ## The ChemicalSystem cells (single-edge section) -/

/-- ligand_A_complex from the notebook: componentA of the chosen edge with
protein and solvent. -/
def ligand_A_complex (edge : LigandAtomMapping) (protein : ProteinComponent)
    (solvent : SolventComponent) : ChemicalSystem :=
  ⟨⟨edge.componentA, solvent, some protein⟩⟩

/-- ligand_A_solvent from the notebook: componentA with solvent only. -/
def ligand_A_solvent (edge : LigandAtomMapping)
    (solvent : SolventComponent) : ChemicalSystem :=
  ⟨⟨edge.componentA, solvent, none⟩⟩

/-- ligand_B_complex from the notebook: componentB with protein and
solvent. -/
def ligand_B_complex (edge : LigandAtomMapping) (protein : ProteinComponent)
    (solvent : SolventComponent) : ChemicalSystem :=
  ⟨⟨edge.componentB, solvent, some protein⟩⟩

/-- ligand_B_solvent from the notebook: componentB with solvent only. -/
def ligand_B_solvent (edge : LigandAtomMapping)
    (solvent : SolventComponent) : ChemicalSystem :=
  ⟨⟨edge.componentB, solvent, none⟩⟩

/-- another_complex from the notebook: rebuilt from the same component
dictionary as ligand_A_complex. -/
def another_complex (edge : LigandAtomMapping) (protein : ProteinComponent)
    (solvent : SolventComponent) : ChemicalSystem :=
  ⟨⟨edge.componentA, solvent, some protein⟩⟩

/-! ## The transformations loop (AlchemicalNetwork cell)

The loop body is embedded statement for statement: build the two base
dictionaries, add the protein when the leg is complex, construct the two
systems, format the name, construct the Transformation, append it. -/

/-- The two system dictionaries the loop body builds for one mapping and
one leg, with the protein added on the complex leg. -/
def legSystems (solvent : SolventComponent) (protein : ProteinComponent)
    (mapping : LigandAtomMapping) (leg : String) : SysDict × SysDict :=
  let sysA_dict : SysDict := ⟨mapping.componentA, solvent, none⟩
  let sysB_dict : SysDict := ⟨mapping.componentB, solvent, none⟩
  if leg == "complex" then
    (⟨sysA_dict.ligand, sysA_dict.solvent, some protein⟩,
     ⟨sysB_dict.ligand, sysB_dict.solvent, some protein⟩)
  else
    (sysA_dict, sysB_dict)

/-- The name the loop formats for one mapping and one leg; the second and
third slots of the format string both interpolate componentA.name. -/
def transformationName (leg : String) (mapping : LigandAtomMapping) : String :=
  leg ++ "_" ++ mapping.componentA.name ++ "_" ++ mapping.componentA.name

/-- The Transformation the loop body constructs for one mapping and one
leg. -/
def loopBodyTransformation (solvent : SolventComponent)
    (protein : ProteinComponent) (proto : RelativeHybridTopologyProtocol)
    (mapping : LigandAtomMapping) (leg : String) : Transformation :=
  let sys := legSystems solvent protein mapping leg
  { stateA := ⟨sys.1⟩
    stateB := ⟨sys.2⟩
    mapping := .ligandKeyed mapping
    protocol := proto
    name := transformationName leg mapping }

/-- The full transformations loop: for each mapping of the MST network
edges, for each leg in [solvent, complex], append the constructed
Transformation to the accumulating list. -/
def buildTransformations (solvent : SolventComponent)
    (protein : ProteinComponent) (proto : RelativeHybridTopologyProtocol)
    (edges : List LigandAtomMapping) : List Transformation :=
  edges.foldl
    (fun acc mapping =>
      (["solvent", "complex"]).foldl
        (fun acc2 leg =>
          acc2 ++ [loopBodyTransformation solvent protein proto mapping leg])
        acc)
    []

/-! ## Reference straight-line sequence (from the specification text)

The specification describes the notebook as a fixed demonstration-order
sequence with no custom control flow: per network edge, first the solvent
leg then the complex leg, each written out directly with no conditional.
These reference definitions follow that description and are compared with
`buildTransformations`, which embeds the actual loop and its
if statement. -/

/-- Reference solvent-leg Transformation for one edge, written directly:
both systems hold ligand and solvent only. -/
def referenceSolventTransformation (solvent : SolventComponent)
    (proto : RelativeHybridTopologyProtocol)
    (mapping : LigandAtomMapping) : Transformation :=
  { stateA := ⟨⟨mapping.componentA, solvent, none⟩⟩
    stateB := ⟨⟨mapping.componentB, solvent, none⟩⟩
    mapping := .ligandKeyed mapping
    protocol := proto
    name := transformationName "solvent" mapping }

/-- Reference complex-leg Transformation for one edge, written directly:
both systems hold ligand, solvent and protein. -/
def referenceComplexTransformation (solvent : SolventComponent)
    (protein : ProteinComponent) (proto : RelativeHybridTopologyProtocol)
    (mapping : LigandAtomMapping) : Transformation :=
  { stateA := ⟨⟨mapping.componentA, solvent, some protein⟩⟩
    stateB := ⟨⟨mapping.componentB, solvent, some protein⟩⟩
    mapping := .ligandKeyed mapping
    protocol := proto
    name := transformationName "complex" mapping }

/-- The reference straight-line sequence over the whole edge list: for each
edge in order, the solvent-leg then the complex-leg Transformation, with no
loop-carried state and no conditional. -/
def referenceStraightLineTransformations (solvent : SolventComponent)
    (protein : ProteinComponent) (proto : RelativeHybridTopologyProtocol)
    (edges : List LigandAtomMapping) : List Transformation :=
  edges.flatMap (fun mapping =>
    [referenceSolventTransformation solvent proto mapping,
     referenceComplexTransformation solvent protein proto mapping])

/-! ## Dumping the network transformations to files

The dump loop writes each transformation of the network to
networktransforms/NAME.json.  The file system is modelled as an
association list from path to the dumped transformation; writing to an
existing path replaces its content. -/

/-- The path the dump loop writes one transformation to. -/
def dumpPath (dir : String) (t : Transformation) : String :=
  dir ++ "/" ++ t.name ++ ".json"

/-- Write semantics: replace any previous content at the path. -/
def writeFile (fs : List (String × Transformation)) (path : String)
    (t : Transformation) : List (String × Transformation) :=
  (fs.filter (fun e => e.1 ≠ path)) ++ [(path, t)]

/-- Read the content at a path, if any. -/
def readFile (fs : List (String × Transformation)) (path : String) :
    Option Transformation :=
  (fs.find? (fun e => e.1 = path)).map (fun e => e.2)

/-- The dump loop over the network transformations, starting from an empty
directory. -/
def dumpNetwork (dir : String) (ts : List Transformation) :
    List (String × Transformation) :=
  ts.foldl (fun fs t => writeFile fs (dumpPath dir t) t) []

/-! ## The atom mappers, as the notebook itself classifies them

The mapping section of the notebook lists the two available mappers:
LomapAtomMapper, which it labels MCS-based (the SMARTS
maximum-common-substructure approach), and KartografAtomMapper, which it
labels Geometry-based.  The cell that produces atom_mapping instantiates
KartografAtomMapper, and both network planning calls pass
[KartografAtomMapper()] as their mappers argument. -/

/-- The two mapping approaches the notebook names. -/
inductive MappingMethod where
  | smartsMcsBased
  | geometryBased
deriving DecidableEq, Repr

/-- An atom mapper: the external package providing it and its mapping
approach. -/
structure AtomMapperSpec where
  package : String
  method : MappingMethod
deriving DecidableEq, Repr

/-- LomapAtomMapper, labelled MCS-based by the notebook. -/
def LomapAtomMapper : AtomMapperSpec := ⟨"lomap", .smartsMcsBased⟩

/-- KartografAtomMapper, labelled Geometry-based by the notebook. -/
def KartografAtomMapper : AtomMapperSpec := ⟨"kartograf", .geometryBased⟩

/-- The mapper the notebook instantiates and calls suggest_mappings on to
map the first and last ligand. -/
def notebookMapper : AtomMapperSpec := KartografAtomMapper

/-- The mappers list passed to generate_lomap_network. -/
def lomapNetworkMappers : List AtomMapperSpec := [KartografAtomMapper]

/-- The mappers list passed to generate_minimal_spanning_network. -/
def mstNetworkMappers : List AtomMapperSpec := [KartografAtomMapper]

/-! ## Command-line interface use -/

/-- The shell command lines of the code cells, in order. -/
def shellCommandLines : List (List String) :=
  notebookStmts.filterMap (fun s =>
    match s with
    | .shell tokens => some tokens
    | _ => none)

/-- The openfe subcommand of a command line, when the command is openfe. -/
def openfeSubcommand : List String → Option String
  | "openfe" :: sub :: _ => some sub
  | _ => none

/-- Every openfe subcommand the notebook consumes, over both the executed
shell cells and the documented quickrun usage. -/
def openfeSubcommandsUsed : List String :=
  (shellCommandLines ++ documentedCommandLines).filterMap openfeSubcommand

/-! ## Sequential effectful execution of the external calls

The notebook contains no try or except statement, so its execution in an
exception monad is the plain sequential composition of its external calls:
the first failing call aborts the run with its error unchanged. -/

/-- Run a list of external calls against an oracle giving each call an
outcome; stop at the first error. -/
def runCalls (oracle : ExtCall → Except String Unit) :
    List ExtCall → Except String Unit
  | [] => Except.ok ()
  | c :: rest =>
    match oracle c with
    | Except.error e => Except.error e
    | Except.ok () => runCalls oracle rest

/-- A statement spawns an operating-system process exactly when it is a
shell escape. -/
def spawnsProcess : PyStmt → Bool
  | .shell _ => true
  | _ => false

/-- The Python modules providing threads, subprocesses and asynchronous
concurrency. -/
def concurrencyModules : List String :=
  ["threading", "_thread", "multiprocessing", "concurrent",
   "concurrent.futures", "asyncio", "subprocess"]

/-- A statement references concurrency when it imports one of the
concurrency modules or calls into one. -/
def referencesConcurrency (s : PyStmt) : Bool :=
  (match s with
   | .pyImport mods => mods.any (fun m => concurrencyModules.contains m)
   | _ => false)
  || (stmtCalls s).any (fun c => concurrencyModules.contains c.package)

/-- A statement is a function or class definition. -/
def isDefStmt : PyStmt → Bool
  | .defStmt _ => true
  | _ => false

/-- A statement is an exception handler. -/
def isTryExcept : PyStmt → Bool
  | .tryExcept => true
  | _ => false

/-- A statement is a shell escape. -/
def isShell : PyStmt → Bool
  | .shell _ => true
  | _ => false

/-- The external packages the notebook imports from and calls into. -/
def externalPackages : List String :=
  ["rdkit.Chem", "rdkit.Chem.AllChem", "rdkit.Chem.Draw", "openfe",
   "openfe.utils.visualization_3D", "openfe.setup.ligand_network_planning",
   "openfe.utils.atommapping_network_plotting", "openfe.protocols.openmm_rfe",
   "kartograf", "pathlib", "builtins"]

/-! ## Sample concrete inputs used to instantiate theorems -/

/-- A sample ligand. -/
def sampleLigand1 : SmallMoleculeComponent := ⟨"ligand_1", "molblock1"⟩

/-- A second sample ligand. -/
def sampleLigand2 : SmallMoleculeComponent := ⟨"ligand_2", "molblock2"⟩

/-- A third sample ligand. -/
def sampleLigand3 : SmallMoleculeComponent := ⟨"ligand_3", "molblock3"⟩

/-- The protein component of the demo system. -/
def sampleProtein : ProteinComponent := ⟨"MCL1", "protein.pdb"⟩

/-- A sample protocol built from the settings the notebook configures. -/
def sampleProtocol : RelativeHybridTopologyProtocol := ⟨⟨⟨"openff-2.2"⟩⟩⟩

/-- A sample edge from ligand_1 to ligand_2. -/
def sampleEdge12 : LigandAtomMapping := ⟨sampleLigand1, sampleLigand2, [(0, 0), (1, 1)]⟩

/-- A sample edge from ligand_1 to ligand_3; it shares componentA with
sampleEdge12. -/
def sampleEdge13 : LigandAtomMapping := ⟨sampleLigand1, sampleLigand3, [(0, 0)]⟩

/-! ## Helper lemmas about the transformations loop -/

/-- Unfolding the inner leg loop: one solvent-leg and one complex-leg
transformation are appended, in that order. -/
theorem foldl_two_legs (solvent : SolventComponent) (protein : ProteinComponent)
    (proto : RelativeHybridTopologyProtocol) (mapping : LigandAtomMapping)
    (acc : List Transformation) :
    (["solvent", "complex"]).foldl
      (fun acc2 leg =>
        acc2 ++ [loopBodyTransformation solvent protein proto mapping leg])
      acc
    = acc ++ [loopBodyTransformation solvent protein proto mapping "solvent",
              loopBodyTransformation solvent protein proto mapping "complex"] := by
  simp [List.foldl]

/-- The accumulator form of the transformations loop. -/
theorem buildTransformations_foldl_acc (solvent : SolventComponent)
    (protein : ProteinComponent) (proto : RelativeHybridTopologyProtocol)
    (edges : List LigandAtomMapping) (acc : List Transformation) :
    edges.foldl
      (fun acc mapping =>
        (["solvent", "complex"]).foldl
          (fun acc2 leg =>
            acc2 ++ [loopBodyTransformation solvent protein proto mapping leg])
          acc)
      acc
    = acc ++ edges.flatMap (fun mapping =>
        [loopBodyTransformation solvent protein proto mapping "solvent",
         loopBodyTransformation solvent protein proto mapping "complex"]) := by
  induction edges generalizing acc with
  | nil => simp
  | cons m rest ih =>
    rw [List.foldl_cons, foldl_two_legs, ih]
    simp [List.append_assoc]

/-- The transformations loop, flattened. -/
theorem buildTransformations_eq_flatMap (solvent : SolventComponent)
    (protein : ProteinComponent) (proto : RelativeHybridTopologyProtocol)
    (edges : List LigandAtomMapping) :
    buildTransformations solvent protein proto edges
    = edges.flatMap (fun mapping =>
        [loopBodyTransformation solvent protein proto mapping "solvent",
         loopBodyTransformation solvent protein proto mapping "complex"]) := by
  unfold buildTransformations
  rw [buildTransformations_foldl_acc]
  simp

/-- On the solvent leg the conditional of the loop body does not fire, so
the built transformation is the straight-line solvent one. -/
theorem loopBody_solvent_eq (solvent : SolventComponent)
    (protein : ProteinComponent) (proto : RelativeHybridTopologyProtocol)
    (mapping : LigandAtomMapping) :
    loopBodyTransformation solvent protein proto mapping "solvent"
    = referenceSolventTransformation solvent proto mapping := by
  rfl

/-- On the complex leg the conditional of the loop body fires, so the built
transformation is the straight-line complex one. -/
theorem loopBody_complex_eq (solvent : SolventComponent)
    (protein : ProteinComponent) (proto : RelativeHybridTopologyProtocol)
    (mapping : LigandAtomMapping) :
    loopBodyTransformation solvent protein proto mapping "complex"
    = referenceComplexTransformation solvent protein proto mapping := by
  rfl

/-- Reading back a freshly written path returns the new content. -/
theorem readFile_writeFile_self (fs : List (String × Transformation))
    (path : String) (t : Transformation) :
    readFile (writeFile fs path t) path = some t := by
  unfold readFile writeFile
  induction fs with
  | nil => simp
  | cons e rest ih =>
    by_cases h : e.1 = path
    · simp [List.filter_cons, h]
    · simp [List.filter_cons, h, List.find?_cons]

/-! ## Claim theorems -/

/-- C3: the notebook is a linear script with no custom control flow.  The
only loops and the only conditional it contains are the transformations
loop and its leg test; for every input (any solvent, protein, protocol and
any list of network edges) that loop computes exactly the fixed
demonstration-order straight-line reference sequence, solvent leg then
complex leg per edge, written without any conditional. -/
theorem transformations_loop_equals_straight_line_reference
    (solvent : SolventComponent) (protein : ProteinComponent)
    (proto : RelativeHybridTopologyProtocol)
    (edges : List LigandAtomMapping) :
    buildTransformations solvent protein proto edges
    = referenceStraightLineTransformations solvent protein proto edges := by
  rw [buildTransformations_eq_flatMap]
  unfold referenceStraightLineTransformations
  simp only [loopBody_solvent_eq, loopBody_complex_eq]

/-- C7: each Transformation built in the network loop is named
leg_componentA.name_componentA.name, componentB never appearing, so two
distinct edges sharing componentA give, for the same leg, the same name and
the same JSON path, and dumping both leaves only the later transformation at
that path. -/
theorem transformation_names_collide_and_overwrite
    (solvent : SolventComponent) (protein : ProteinComponent)
    (proto : RelativeHybridTopologyProtocol)
    (m1 m2 : LigandAtomMapping) (leg : String)
    (hA : m1.componentA.name = m2.componentA.name) (_hne : m1 ≠ m2) :
    transformationName leg m1
      = leg ++ "_" ++ m1.componentA.name ++ "_" ++ m1.componentA.name
    ∧ (loopBodyTransformation solvent protein proto m1 leg).name
        = (loopBodyTransformation solvent protein proto m2 leg).name
    ∧ dumpPath "networktransforms"
          (loopBodyTransformation solvent protein proto m1 leg)
        = dumpPath "networktransforms"
          (loopBodyTransformation solvent protein proto m2 leg)
    ∧ readFile
        (dumpNetwork "networktransforms"
          [loopBodyTransformation solvent protein proto m1 leg,
           loopBodyTransformation solvent protein proto m2 leg])
        (dumpPath "networktransforms"
          (loopBodyTransformation solvent protein proto m1 leg))
      = some (loopBodyTransformation solvent protein proto m2 leg) := by
  have hname : (loopBodyTransformation solvent protein proto m1 leg).name
      = (loopBodyTransformation solvent protein proto m2 leg).name := by
    simp [loopBodyTransformation, transformationName, hA]
  have hpath : dumpPath "networktransforms"
        (loopBodyTransformation solvent protein proto m1 leg)
      = dumpPath "networktransforms"
        (loopBodyTransformation solvent protein proto m2 leg) := by
    simp [dumpPath, hname]
  refine ⟨rfl, hname, hpath, ?_⟩
  rw [hpath]
  unfold dumpNetwork
  simp only [List.foldl_cons, List.foldl_nil]
  exact readFile_writeFile_self _ _ _

/-- Witness for C7 at concrete inputs: the edges ligand_1 to ligand_2 and
ligand_1 to ligand_3 are distinct, share componentA, and on the solvent leg
collide on the same path, where the later dump wins. -/
theorem transformation_names_collide_and_overwrite_witness :
    sampleEdge12.componentA.name = sampleEdge13.componentA.name
    ∧ sampleEdge12 ≠ sampleEdge13
    ∧ (transformationName "solvent" sampleEdge12
        = "solvent" ++ "_" ++ sampleEdge12.componentA.name ++ "_"
            ++ sampleEdge12.componentA.name
      ∧ (loopBodyTransformation notebookSolvent sampleProtein sampleProtocol
            sampleEdge12 "solvent").name
          = (loopBodyTransformation notebookSolvent sampleProtein sampleProtocol
            sampleEdge13 "solvent").name
      ∧ dumpPath "networktransforms"
            (loopBodyTransformation notebookSolvent sampleProtein sampleProtocol
              sampleEdge12 "solvent")
          = dumpPath "networktransforms"
            (loopBodyTransformation notebookSolvent sampleProtein sampleProtocol
              sampleEdge13 "solvent")
      ∧ readFile
          (dumpNetwork "networktransforms"
            [loopBodyTransformation notebookSolvent sampleProtein sampleProtocol
              sampleEdge12 "solvent",
             loopBodyTransformation notebookSolvent sampleProtein sampleProtocol
              sampleEdge13 "solvent"])
          (dumpPath "networktransforms"
            (loopBodyTransformation notebookSolvent sampleProtein sampleProtocol
              sampleEdge12 "solvent"))
        = some (loopBodyTransformation notebookSolvent sampleProtein sampleProtocol
            sampleEdge13 "solvent")) :=
  ⟨by decide, by decide,
   transformation_names_collide_and_overwrite notebookSolvent sampleProtein
     sampleProtocol sampleEdge12 sampleEdge13 "solvent" (by decide) (by decide)⟩

/-- C8: the network holds exactly two Transformations per MST edge, the
solvent leg with components ligand and solvent only and the complex leg
with ligand, solvent and protein, stateA holding componentA and stateB
componentB of the edge, and every Transformation carries the one shared
protocol object. -/
theorem alchemical_network_two_legs_per_edge
    (solvent : SolventComponent) (protein : ProteinComponent)
    (proto : RelativeHybridTopologyProtocol)
    (edges : List LigandAtomMapping) :
    (buildTransformations solvent protein proto edges).length = 2 * edges.length
    ∧ (∀ t ∈ buildTransformations solvent protein proto edges,
        t.protocol = proto)
    ∧ ∀ m ∈ edges,
        (∃ tS ∈ buildTransformations solvent protein proto edges,
          tS.stateA = ⟨⟨m.componentA, solvent, none⟩⟩
          ∧ tS.stateB = ⟨⟨m.componentB, solvent, none⟩⟩
          ∧ tS.protocol = proto)
        ∧ ∃ tC ∈ buildTransformations solvent protein proto edges,
          tC.stateA = ⟨⟨m.componentA, solvent, some protein⟩⟩
          ∧ tC.stateB = ⟨⟨m.componentB, solvent, some protein⟩⟩
          ∧ tC.protocol = proto := by
  rw [buildTransformations_eq_flatMap]
  refine ⟨?_, ?_, ?_⟩
  · induction edges with
    | nil => simp
    | cons m rest ih =>
      simp only [List.flatMap_cons, List.length_append, ih, List.length_cons,
        List.length_nil]
      omega
  · intro t ht
    rcases List.mem_flatMap.mp ht with ⟨m, _, hmem⟩
    simp only [List.mem_cons, List.not_mem_nil, or_false] at hmem
    rcases hmem with h | h <;> (rw [h]; rfl)
  · intro m hm
    constructor
    · refine ⟨loopBodyTransformation solvent protein proto m "solvent",
        List.mem_flatMap.mpr ⟨m, hm, by simp⟩, ?_, ?_, ?_⟩ <;> rfl
    · refine ⟨loopBodyTransformation solvent protein proto m "complex",
        List.mem_flatMap.mpr ⟨m, hm, by simp⟩, ?_, ?_, ?_⟩ <;> rfl

/-- Witness for C8 at concrete inputs: a two-edge network over the sample
ligands. -/
theorem alchemical_network_two_legs_per_edge_witness :
    (buildTransformations notebookSolvent sampleProtein sampleProtocol
        [sampleEdge12, sampleEdge13]).length = 2 * 2
    ∧ (∃ tS ∈ buildTransformations notebookSolvent sampleProtein sampleProtocol
          [sampleEdge12, sampleEdge13],
        tS.stateA = ⟨⟨sampleEdge12.componentA, notebookSolvent, none⟩⟩
        ∧ tS.stateB = ⟨⟨sampleEdge12.componentB, notebookSolvent, none⟩⟩
        ∧ tS.protocol = sampleProtocol) := by
  have h := alchemical_network_two_legs_per_edge notebookSolvent sampleProtein
    sampleProtocol [sampleEdge12, sampleEdge13]
  exact ⟨h.1, ((h.2.2 sampleEdge12 (by decide)).1)⟩

/-- C1, counterexample: two notebook operations do mutate an object between
its creation and its use.  The settings object is created by
default_settings at statement 35, its small_molecule_forcefield field is
reassigned at statement 37, and it is used to build the protocol at
statement 39; the RDKit molecules are loaded at statement 2, mutated in
place by Compute2DCoords at statement 3, and used by MolsToGridImage at
statement 4. -/
theorem settings_and_rdmols_mutated_between_creation_and_use :
    notebookStmts[35]? = some (.assign "settings"
      [⟨"openfe.protocols.openmm_rfe", "RelativeHybridTopologyProtocol.default_settings"⟩])
    ∧ notebookStmts[37]? = some (.attrAssign "settings"
        ["forcefield_settings", "small_molecule_forcefield"] "openff-2.2")
    ∧ notebookStmts[39]? = some (.assign "rbfe_protocol"
        [⟨"openfe.protocols.openmm_rfe", "RelativeHybridTopologyProtocol"⟩])
    ∧ isMutation (.attrAssign "settings"
        ["forcefield_settings", "small_molecule_forcefield"] "openff-2.2") = true
    ∧ notebookStmts[2]? = some (.assign "ligand_rdmols"
        [⟨"rdkit.Chem", "SDMolSupplier"⟩])
    ∧ notebookStmts[3]? = some (.inPlaceCall "ligand_rdmols"
        ⟨"rdkit.Chem.AllChem", "Compute2DCoords"⟩)
    ∧ notebookStmts[4]? = some (.expr [⟨"rdkit.Chem.Draw", "MolsToGridImage"⟩])
    ∧ isMutation (.inPlaceCall "ligand_rdmols"
        ⟨"rdkit.Chem.AllChem", "Compute2DCoords"⟩) = true := by
  decide

/-- C1, amended: the only objects any notebook statement mutates are the
protocol settings (the forcefield field reassignment) and the RDKit
molecule list (the in-place 2D coordinate computation); every other object
is passed through to external calls unmodified. -/
theorem only_settings_and_rdmols_are_mutated :
    ∀ s ∈ notebookStmts, isMutation s = true →
      mutationTarget s = some "settings"
      ∨ mutationTarget s = some "ligand_rdmols" := by
  decide

/-- Witness for the amended C1 at the concrete mutating statement. -/
theorem only_settings_and_rdmols_are_mutated_witness :
    (PyStmt.attrAssign "settings"
      ["forcefield_settings", "small_molecule_forcefield"] "openff-2.2")
      ∈ notebookStmts
    ∧ isMutation (PyStmt.attrAssign "settings"
        ["forcefield_settings", "small_molecule_forcefield"] "openff-2.2") = true
    ∧ (mutationTarget (PyStmt.attrAssign "settings"
          ["forcefield_settings", "small_molecule_forcefield"] "openff-2.2")
        = some "settings"
      ∨ mutationTarget (PyStmt.attrAssign "settings"
          ["forcefield_settings", "small_molecule_forcefield"] "openff-2.2")
        = some "ligand_rdmols") :=
  ⟨by decide, by decide,
   only_settings_and_rdmols_are_mutated _ (by decide) (by decide)⟩

/-- C2, counterexample: the mapper the notebook invokes, and the one it
hands to both network planners, is not the SMARTS
maximum-common-substructure one; by the classification in the notebook
itself it is the geometry-based KartografAtomMapper. -/
theorem notebook_mapper_is_not_smarts_mcs_based :
    notebookMapper.method = MappingMethod.geometryBased
    ∧ (notebookMapper.method == MappingMethod.smartsMcsBased) = false
    ∧ mstNetworkMappers.all
        (fun mp => mp.method == MappingMethod.geometryBased) = true
    ∧ lomapNetworkMappers.all
        (fun mp => mp.method == MappingMethod.geometryBased) = true := by
  decide

/-- C2, amended: the atom-mapping step the notebook performs is
geometry-based atom mapping delegated to the external kartograf package:
the mapper invoked through suggest_mappings on the first and last ligand,
and the mapper supplied to both network planners, is the
KartografAtomMapper, while the SMARTS-MCS-based LomapAtomMapper is
presented but not the one used. -/
theorem notebook_mapper_is_geometry_based_kartograf :
    notebookMapper = KartografAtomMapper
    ∧ KartografAtomMapper.method = MappingMethod.geometryBased
    ∧ KartografAtomMapper.package = "kartograf"
    ∧ LomapAtomMapper.method = MappingMethod.smartsMcsBased
    ∧ mstNetworkMappers = [KartografAtomMapper]
    ∧ lomapNetworkMappers = [KartografAtomMapper]
    ∧ (⟨"kartograf", "KartografAtomMapper.suggest_mappings"⟩ : ExtCall)
        ∈ notebookExtCalls := by
  decide

/-- C4: each workflow step is realized by a call into a separately
maintained external package: atom mapping by kartograf, the minimum
spanning tree network by the openfe network planning module, the alchemical
simulation by the openfe hybrid-topology protocol (executed through the
documented quickrun command line), and free-energy estimation by the openfe
gather command; every call of the notebook targets an external package and
the notebook defines no function or class of its own. -/
theorem workflow_steps_delegated_to_external_packages :
    (⟨"kartograf", "KartografAtomMapper.suggest_mappings"⟩ : ExtCall)
      ∈ notebookExtCalls
    ∧ (⟨"openfe.setup.ligand_network_planning",
        "generate_minimal_spanning_network"⟩ : ExtCall) ∈ notebookExtCalls
    ∧ (⟨"openfe.protocols.openmm_rfe",
        "RelativeHybridTopologyProtocol"⟩ : ExtCall) ∈ notebookExtCalls
    ∧ ["openfe", "gather", "results_jsons/", "--report", "ddg"]
        ∈ shellCommandLines
    ∧ ["openfe", "quickrun", "path/to/transformation.json", "-o",
        "results.json", "-d", "working-directory"] ∈ documentedCommandLines
    ∧ notebookExtCalls.all
        (fun c => externalPackages.contains c.package) = true
    ∧ notebookStmts.all (fun s => !(isDefStmt s)) = true := by
  decide

/-- The first failing external call aborts a sequential run with its error
unchanged. -/
theorem runCalls_error_propagates (oracle : ExtCall → Except String Unit)
    (pre : List ExtCall) (c : ExtCall) (post : List ExtCall) (e : String)
    (hpre : ∀ c2 ∈ pre, oracle c2 = Except.ok ())
    (hc : oracle c = Except.error e) :
    runCalls oracle (pre ++ c :: post) = Except.error e := by
  induction pre with
  | nil => simp [runCalls, hc]
  | cons a rest ih =>
    have ha := hpre a (List.mem_cons_self a rest)
    simp only [List.cons_append, runCalls, ha]
    exact ih (fun c2 h2 => hpre c2 (List.mem_cons_of_mem a h2))

/-- C5: the notebook contains no exception handler, so in a sequential run
of its external calls any raised error propagates to the caller unchanged:
whenever the calls before some call succeed and that call fails, the whole
notebook run reports exactly that error. -/
theorem no_try_except_and_errors_propagate :
    notebookStmts.all (fun s => !(isTryExcept s)) = true
    ∧ ∀ (oracle : ExtCall → Except String Unit) (pre : List ExtCall)
        (c : ExtCall) (post : List ExtCall) (e : String),
        notebookExtCalls = pre ++ c :: post →
        (∀ c2 ∈ pre, oracle c2 = Except.ok ()) →
        oracle c = Except.error e →
        runCalls oracle notebookExtCalls = Except.error e := by
  refine ⟨by decide, ?_⟩
  intro oracle pre c post e hsplit hpre hc
  rw [hsplit]
  exact runCalls_error_propagates oracle pre c post e hpre hc

/-- Witness for C5: an oracle failing on the very first external call of
the notebook makes the whole run fail with that same error. -/
theorem no_try_except_and_errors_propagate_witness :
    notebookExtCalls
      = [] ++ (⟨"rdkit.Chem", "SDMolSupplier"⟩ : ExtCall)
          :: notebookExtCalls.drop 1
    ∧ runCalls (fun _ => Except.error "simulated failure") notebookExtCalls
      = Except.error "simulated failure" :=
  ⟨by decide,
   no_try_except_and_errors_propagate.2
     (fun _ => Except.error "simulated failure") []
     ⟨"rdkit.Chem", "SDMolSupplier"⟩ (notebookExtCalls.drop 1)
     "simulated failure" (by decide) (by intro c2 h2; cases h2) rfl⟩

/-- C6: the notebook consumes exactly three openfe subcommands, one per
workflow phase: plan-rbfe-network for network planning, quickrun (in the
documented execution command line) for execution, and gather for result
gathering; no other openfe subcommand occurs. -/
theorem openfe_cli_subcommands_exactly_three :
    openfeSubcommandsUsed.contains "plan-rbfe-network" = true
    ∧ openfeSubcommandsUsed.contains "quickrun" = true
    ∧ openfeSubcommandsUsed.contains "gather" = true
    ∧ openfeSubcommandsUsed.all
        (fun sub => (["plan-rbfe-network", "quickrun", "gather"]).contains sub)
      = true := by
  decide

/-- C9: ChemicalSystem construction is deterministic and equality is
structural: the system rebuilt from the same component dictionary equals
ligand_A_complex, systems whose ligand components differ are unequal, and
in general two systems built from dictionaries with different ligands never
compare equal. -/
theorem chemical_system_structural_equality
    (edge : LigandAtomMapping) (protein : ProteinComponent)
    (solvent : SolventComponent) :
    ligand_A_complex edge protein solvent = another_complex edge protein solvent
    ∧ (edge.componentA ≠ edge.componentB →
        ligand_A_complex edge protein solvent
          ≠ ligand_B_complex edge protein solvent)
    ∧ ∀ d d2 : SysDict, d.ligand ≠ d2.ligand →
        ChemicalSystem.mk d ≠ ChemicalSystem.mk d2 := by
  refine ⟨rfl, ?_, ?_⟩
  · intro hAB heq
    apply hAB
    have h2 := congrArg (fun cs => cs.components.ligand) heq
    simpa [ligand_A_complex, ligand_B_complex] using h2
  · intro d d2 hlig heq
    apply hlig
    have h2 := congrArg (fun cs => cs.components.ligand) heq
    simpa using h2

/-- Witness for C9 at a concrete edge whose two components differ. -/
theorem chemical_system_structural_equality_witness :
    sampleEdge12.componentA ≠ sampleEdge12.componentB
    ∧ ligand_A_complex sampleEdge12 sampleProtein notebookSolvent
        = another_complex sampleEdge12 sampleProtein notebookSolvent
    ∧ ligand_A_complex sampleEdge12 sampleProtein notebookSolvent
        ≠ ligand_B_complex sampleEdge12 sampleProtein notebookSolvent :=
  ⟨by decide,
   (chemical_system_structural_equality sampleEdge12 sampleProtein
     notebookSolvent).1,
   (chemical_system_structural_equality sampleEdge12 sampleProtein
     notebookSolvent).2.1 (by decide)⟩

/-- C10, counterexample: the shell escape cells are notebook operations
that spawn an operating-system process; the plan-rbfe-network cell is one
of them. -/
theorem shell_cells_spawn_processes :
    notebookStmts[54]? = some (.shell ["openfe", "plan-rbfe-network", "-M",
      "ligands.sdf", "-p", "protein.pdb", "-o", "cli_setup", "-s",
      "settings.yaml"])
    ∧ spawnsProcess (.shell ["openfe", "plan-rbfe-network", "-M",
        "ligands.sdf", "-p", "protein.pdb", "-o", "cli_setup", "-s",
        "settings.yaml"]) = true := by
  decide

/-- C10, amended: the notebook runs its cells sequentially on a single
thread and introduces no concurrency, cancellation or shared mutable state
of its own: no statement imports or calls a thread, subprocess or
asynchronous-concurrency module, and the only statements that spawn a
process are the blocking shell command cells, each run to completion in
sequence. -/
theorem no_threads_and_only_shell_processes :
    ∀ s ∈ notebookStmts,
      referencesConcurrency s = false
      ∧ (spawnsProcess s = true → isShell s = true) := by
  decide

/-- Witness for the amended C10 at a concrete shell statement. -/
theorem no_threads_and_only_shell_processes_witness :
    (PyStmt.shell ["openfe", "gather", "results_jsons/", "--report", "ddg"])
      ∈ notebookStmts
    ∧ referencesConcurrency
        (PyStmt.shell ["openfe", "gather", "results_jsons/", "--report", "ddg"])
      = false
    ∧ isShell
        (PyStmt.shell ["openfe", "gather", "results_jsons/", "--report", "ddg"])
      = true :=
  ⟨by decide,
   (no_threads_and_only_shell_processes _ (by decide)).1,
   (no_threads_and_only_shell_processes _ (by decide)).2 (by decide)⟩




